import Mathlib

/-!
Verification development for the Capter capture/annotation state machine
(`src/windows/capture_window/mod.rs`, `CaptureWindow::update`).

Modelling conventions:
* `iced::Point` holds two `f32` coordinates; we model coordinates as exact
  rationals `ℚ` (the claims under study are order-theoretic and exact on the
  ranges involved).
* `CapturedWindow` has `x y : i32` and `width height : u32`; we model them as
  unbounded `Int`/`Nat` (no claim depends on 32-bit wraparound).
* `indexmap::IndexMap<u32, CapturedWindow>` is iterated in insertion order by
  `self.windows.iter()`; we model it as an association list in that order.
* `iced::widget::canvas::Cache` is used only through `clear()` (invalidation);
  we track the number of `clear()` calls.
* `Task<AppEvent>` results are either `Task::none()` or
  `Task::done(AppEvent::RequestClose(id))`; we model the result as
  `Option AppEvent`.
* The `image : RgbaImage` field is an input pixel buffer never read or written
  by `update`; it is omitted from the state.
-/

namespace Capter

/-- `iced::Point`: a 2-D coordinate, modelled with exact rational components. -/
structure Point where
  x : ℚ
  y : ℚ
  deriving DecidableEq, Repr

/-- `models::Endpoints`: the ordered pair of drag endpoints. -/
structure Endpoints where
  initial_pt : Point
  final_pt : Point
  deriving DecidableEq, Repr

/-- `models::Mode`: the top-level mode. -/
inductive Mode where
  | Crop
  | Draw
  deriving DecidableEq, Repr

/-- `models::CropMode`. -/
inductive CropMode where
  | FullScreen
  | SpecificWindow (id : Nat)
  | SelectionInProgress
  | ManualSelection
  deriving DecidableEq, Repr

/-- `models::ShapeType`. -/
inductive ShapeType where
  | Rectangle
  | Ellipse
  | Line
  | Arrow
  deriving DecidableEq, Repr

/-- `models::ShapeStroke`. -/
inductive ShapeStroke where
  | Thin
  | Medium
  | Broad
  deriving DecidableEq, Repr

/-- `models::ShapeColor`. -/
inductive ShapeColor where
  | Red
  | Green
  | Blue
  | Yellow
  | Black
  | White
  deriving DecidableEq, Repr

/-- `models::Shape`: the drawable shape / template. -/
structure Shape where
  shape_type : ShapeType
  is_filled : Bool
  is_solid : Bool
  stroke_width : ShapeStroke
  color : ShapeColor
  endpoints : Option Endpoints
  deriving DecidableEq, Repr

/-- `models::CapturedWindow`: one entry of the window catalog
(`x y : i32`, `width height : u32`, `name : String`). -/
structure CapturedWindow where
  x : Int
  y : Int
  width : Nat
  height : Nat
  name : String
  deriving DecidableEq, Repr

/-- `iced::widget::canvas::Cache`, observed only through `clear()`:
we record how many times it has been cleared (invalidated). -/
structure Cache where
  cleared : Nat
  deriving DecidableEq, Repr

/-- `Cache::clear` invalidates the cache. -/
def Cache.clear (c : Cache) : Cache :=
  { cleared := c.cleared + 1 }

/-- The `CaptureWindow` session state (the `image` pixel buffer, never touched
by `update`, is omitted). -/
structure CaptureWindow where
  scale_factor : ℚ
  crop_mode : CropMode
  mode_desc : String
  windows : List (Nat × CapturedWindow)
  cursor_position : Point
  mode : Mode
  endpoints : Endpoints
  shape : Shape
  shapes : List Shape
  cache : Cache
  deriving DecidableEq, Repr

/-- `CaptureEvent`. -/
inductive CaptureEvent where
  | Undo
  | Done
  | Cancel
  | ChooseShapeType (shape_type : ShapeType) (is_filled : Bool) (is_solid : Bool)
  | ChangeStroke (stroke_width : ShapeStroke)
  | ChangeColor (color : ShapeColor)
  | SetInitialPoint
  | UpdateCurrentPosition (final_pt : Point)
  | SetFinalPoint
  deriving DecidableEq, Repr

/-- The only `AppEvent` ever produced by `CaptureWindow::update`. -/
inductive AppEvent where
  | RequestClose (id : Nat)
  deriving DecidableEq, Repr

/-- The `top_left` corner used by the hit test: `(window.x as f32, window.y as f32)`. -/
def windowTopLeft (w : CapturedWindow) : Point :=
  { x := (w.x : ℚ), y := (w.y : ℚ) }

/-- The `bottom_right` corner used by the hit test:
`((window.x + window.width as i32) as f32, (window.y + window.height as i32) as f32)`. -/
def windowBottomRight (w : CapturedWindow) : Point :=
  { x := ((w.x + (w.width : Int) : Int) : ℚ), y := ((w.y + (w.height : Int) : Int) : ℚ) }

/-- The `find_map` closure of `UpdateCurrentPosition`: scan the catalog in
iteration (insertion) order and return, for the first window whose
`(top_left.0..bottom_right.0)` and `(top_left.1..bottom_right.1)` ranges both
contain the cursor (Rust range containment is `lo <= v && v < hi`), the tuple
`(id, name, top_left, bottom_right)`. -/
def hitWindow : List (Nat × CapturedWindow) → Point → Option (Nat × String × Point × Point)
  | [], _ => none
  | (id, window) :: rest, p =>
    let top_left := windowTopLeft window
    let bottom_right := windowBottomRight window
    if (top_left.x ≤ p.x ∧ p.x < bottom_right.x) ∧ (top_left.y ≤ p.y ∧ p.y < bottom_right.y) then
      some (id, window.name, top_left, bottom_right)
    else
      hitWindow rest p

/-- Modelled from the spec: `Endpoints::normalize` is defined in the
repository's `models` module, whose source is not among the provided files
(only its call site at `mod.rs:146` is). The spec says: "returns corners
reordered so initial ≤ final componentwise. Pure function, no side
effects, idempotent". -/
def Endpoints.normalize (e : Endpoints) : Endpoints :=
  { initial_pt := { x := min e.initial_pt.x e.final_pt.x, y := min e.initial_pt.y e.final_pt.y },
    final_pt := { x := max e.initial_pt.x e.final_pt.x, y := max e.initial_pt.y e.final_pt.y } }

/-- Rust `f32 as u32`: truncate toward zero, saturating at `0` and `u32::MAX`.
For `q ≥ 0` truncation coincides with `floor`; every negative value maps to 0,
which `Int.toNat` of the floor also gives. -/
def f32AsU32 (q : ℚ) : Nat :=
  min (⌊q⌋).toNat (2 ^ 32 - 1)

/-- The `mode_desc` string computed in the `SelectionInProgress` branch of
`UpdateCurrentPosition`: `format!("{} x {}", size.x as u32, size.y as u32)`
where `size = final_pt - initial_pt` of the normalized endpoints. -/
def sizeDesc (e : Endpoints) : String :=
  toString (f32AsU32 (e.normalize.final_pt.x - e.normalize.initial_pt.x)) ++ " x " ++
    toString (f32AsU32 (e.normalize.final_pt.y - e.normalize.initial_pt.y))

/-- `CaptureWindow::update`, translated branch by branch from
`src/windows/capture_window/mod.rs` lines 59–173. -/
def CaptureWindow.update (s : CaptureWindow) (id : Nat) (message : CaptureEvent) :
    CaptureWindow × Option AppEvent :=
  match message with
  | CaptureEvent.Undo =>
    if s.mode = Mode.Draw then
      ({ s with shapes := s.shapes.dropLast, cache := s.cache.clear }, none)
    else
      ({ s with crop_mode := CropMode.FullScreen }, none)
  | CaptureEvent.Done =>
    if s.mode = Mode.Draw then
      ({ s with mode := Mode.Crop }, none)
    else
      (s, some (AppEvent.RequestClose id))
  | CaptureEvent.Cancel =>
    if s.mode = Mode.Draw then
      ({ s with shapes := [], cache := s.cache.clear, mode := Mode.Crop }, none)
    else
      (s, some (AppEvent.RequestClose id))
  | CaptureEvent.ChooseShapeType shape_type is_filled is_solid =>
    ({ s with
        mode := Mode.Draw,
        shape := { s.shape with
          endpoints := none,
          shape_type := shape_type,
          is_filled := is_filled,
          is_solid := is_solid } }, none)
  | CaptureEvent.ChangeStroke stroke_width =>
    ({ s with shape := { s.shape with stroke_width := stroke_width } }, none)
  | CaptureEvent.ChangeColor color =>
    ({ s with shape := { s.shape with color := color } }, none)
  | CaptureEvent.SetInitialPoint =>
    match s.mode with
    | Mode.Draw =>
      ({ s with shape := { s.shape with
          endpoints := some { initial_pt := s.cursor_position,
                              final_pt := s.cursor_position } } }, none)
    | Mode.Crop =>
      ({ s with
          crop_mode := CropMode.SelectionInProgress,
          endpoints := { initial_pt := s.cursor_position,
                         final_pt := s.cursor_position } }, none)
  | CaptureEvent.UpdateCurrentPosition final_pt =>
    let s1 := { s with cursor_position := final_pt }
    if s1.mode = Mode.Draw then
      match s1.shape.endpoints with
      | some endpoints =>
        ({ s1 with shape := { s1.shape with
            endpoints := some { endpoints with final_pt := final_pt } } }, none)
      | none => (s1, none)
    else if (match s1.crop_mode with
             | CropMode.FullScreen => true
             | CropMode.SpecificWindow _ => true
             | _ => false) then
      match hitWindow s1.windows s1.cursor_position with
      | some (id2, name, top_left, bottom_right) =>
        ({ s1 with
            endpoints := { initial_pt := top_left, final_pt := bottom_right },
            crop_mode := CropMode.SpecificWindow id2,
            mode_desc := name }, none)
      | none =>
        ({ s1 with crop_mode := CropMode.FullScreen, mode_desc := "FullScreen" }, none)
    else if s1.crop_mode = CropMode.SelectionInProgress then
      let s2 := { s1 with endpoints := { s1.endpoints with final_pt := final_pt } }
      ({ s2 with mode_desc := sizeDesc s2.endpoints }, none)
    else
      (s1, none)
  | CaptureEvent.SetFinalPoint =>
    match s.mode with
    | Mode.Draw =>
      let s1 := if s.shape.endpoints.isSome then
          { s with shapes := s.shapes ++ [s.shape], cache := s.cache.clear }
        else s
      ({ s1 with shape := { s1.shape with endpoints := none } }, none)
    | Mode.Crop =>
      if s.endpoints.initial_pt ≠ s.cursor_position then
        ({ s with
            endpoints := { s.endpoints with final_pt := s.cursor_position },
            crop_mode := CropMode.ManualSelection }, none)
      else
        ({ s with crop_mode := CropMode.FullScreen }, none)

/-- Catalog entry A of the spec's snapping example: bounds (0,0)–(100,100). -/
def wA : CapturedWindow :=
  { x := 0, y := 0, width := 100, height := 100, name := "A" }

/-- Catalog entry B of the spec's snapping example: overlaps A, inserted second. -/
def wB : CapturedWindow :=
  { x := 50, y := 50, width := 150, height := 150, name := "B" }

/-- A concrete base session state used by the concrete witnesses. -/
def base : CaptureWindow :=
  { scale_factor := 1,
    crop_mode := CropMode.FullScreen,
    mode_desc := "FullScreen",
    windows := [(1, wA), (2, wB)],
    cursor_position := { x := 0, y := 0 },
    mode := Mode.Crop,
    endpoints := { initial_pt := { x := 0, y := 0 }, final_pt := { x := 0, y := 0 } },
    shape := { shape_type := ShapeType.Rectangle, is_filled := true, is_solid := true,
               stroke_width := ShapeStroke.Medium, color := ShapeColor.Red,
               endpoints := none },
    shapes := [],
    cache := { cleared := 0 } }

example : (base.update 0 (CaptureEvent.UpdateCurrentPosition { x := 60, y := 60 })).1.crop_mode
    = CropMode.SpecificWindow 1 := by decide

example : (base.update 0 CaptureEvent.Done).2 = some (AppEvent.RequestClose 0) := by decide

/-- Written from the spec (for the refinement check of the hit test):
"half-open interval test, `[topLeft, bottomRight)` on both axes". -/
def specContains (w : CapturedWindow) (p : Point) : Prop :=
  (windowTopLeft w).x ≤ p.x ∧ p.x < (windowBottomRight w).x ∧
    (windowTopLeft w).y ≤ p.y ∧ p.y < (windowBottomRight w).y

instance (w : CapturedWindow) (p : Point) : Decidable (specContains w p) := by
  unfold specContains
  infer_instance

/-- Written from the spec: "returns the first entry (in catalog iteration
order) whose bounds `contains(p)`; `None` if no match". -/
def specFind (ws : List (Nat × CapturedWindow)) (p : Point) : Option (Nat × CapturedWindow) :=
  ws.find? (fun e => decide (specContains e.2 p))

theorem hitWindow_eq_specFind (ws : List (Nat × CapturedWindow)) (p : Point) :
    hitWindow ws p =
      (specFind ws p).map (fun e => (e.1, e.2.name, windowTopLeft e.2, windowBottomRight e.2)) := by
  induction ws with
  | nil => rfl
  | cons hd tl ih =>
    obtain ⟨i, w⟩ := hd
    have hiff : (((windowTopLeft w).x ≤ p.x ∧ p.x < (windowBottomRight w).x) ∧
        (windowTopLeft w).y ≤ p.y ∧ p.y < (windowBottomRight w).y) ↔ specContains w p := by
      unfold specContains
      tauto
    by_cases hc : specContains w p
    · have hhd : specFind ((i, w) :: tl) p = some (i, w) := by
        simp [specFind, List.find?, hc]
      simp only [hitWindow]
      rw [if_pos (hiff.mpr hc), hhd]
      rfl
    · have hhd : specFind ((i, w) :: tl) p = specFind tl p := by
        simp [specFind, List.find?, hc]
      simp only [hitWindow]
      rw [if_neg (fun hh => hc (hiff.mp hh)), hhd]
      exact ih

theorem specFind_eq_none {ws : List (Nat × CapturedWindow)} {p : Point}
    (h : specFind ws p = none) : ∀ e ∈ ws, ¬ specContains e.2 p := by
  intro e he
  have := List.find?_eq_none.mp h e he
  simpa using this

theorem specFind_eq_some {ws : List (Nat × CapturedWindow)} {p : Point}
    {i : Nat} {w : CapturedWindow} (h : specFind ws p = some (i, w)) :
    specContains w p ∧
      ∃ pre post, ws = pre ++ (i, w) :: post ∧ ∀ e ∈ pre, ¬ specContains e.2 p := by
  induction ws with
  | nil => simp [specFind] at h
  | cons hd tl ih =>
    obtain ⟨j, v⟩ := hd
    by_cases hc : specContains v p
    · have hhd : specFind ((j, v) :: tl) p = some (j, v) := by
        simp [specFind, List.find?, hc]
      rw [hhd] at h
      obtain ⟨rfl, rfl⟩ : j = i ∧ v = w := by
        simpa [Prod.ext_iff] using h
      exact ⟨hc, [], tl, by simp, by simp⟩
    · have hhd : specFind ((j, v) :: tl) p = specFind tl p := by
        simp [specFind, List.find?, hc]
      rw [hhd] at h
      obtain ⟨hcw, pre, post, heq, hpre⟩ := ih h
      refine ⟨hcw, (j, v) :: pre, post, by simp [heq], ?_⟩
      intro e he
      rcases List.mem_cons.mp he with he | he
      · rw [he]
        exact hc
      · exact hpre e he

theorem specFind_mem {ws : List (Nat × CapturedWindow)} {p : Point}
    {i : Nat} {w : CapturedWindow} (h : specFind ws p = some (i, w)) :
    (i, w) ∈ ws :=
  List.mem_of_find?_eq_some h

/-- The invariant of claim C9: a `SpecificWindow(id)` crop mode always
references an entry present in the window catalog. -/
def cropModeValid (s : CaptureWindow) : Prop :=
  ∀ i, s.crop_mode = CropMode.SpecificWindow i → ∃ w, (i, w) ∈ s.windows

theorem hitWindow_mem {ws : List (Nat × CapturedWindow)} {p : Point}
    {i : Nat} {n : String} {tl br : Point}
    (h : hitWindow ws p = some (i, n, tl, br)) : ∃ w, (i, w) ∈ ws := by
  rw [hitWindow_eq_specFind] at h
  obtain ⟨⟨j, w⟩, hfind, heq⟩ := Option.map_eq_some.mp h
  obtain ⟨h1, -⟩ := Prod.mk.injEq .. ▸ heq
  exact ⟨w, h1 ▸ specFind_mem hfind⟩

/-- C1, counterexample: in the concrete state `base` (top-level Mode = Crop),
dispatching `Done` returns the Close command and does NOT transition the mode
to Draw — refuting "dispatching Done while the top-level Mode is Crop
transitions the top-level Mode to Draw (no close command)". -/
theorem C1_counterexample :
    base.mode = Mode.Crop ∧
      (base.update 0 CaptureEvent.Done).2 = some (AppEvent.RequestClose 0) ∧
      ¬ (base.update 0 CaptureEvent.Done).1.mode = Mode.Draw := by
  decide

/-- C1, amended: dispatching `Done` while the top-level Mode is Draw
transitions the top-level Mode to Crop (no close command), and dispatching
`Done` while the top-level Mode is Crop returns the Close session command
(finalizing with the committed shapes, the in-progress template untouched);
the shape list, template and crop mode are unchanged in both cases. -/
theorem C1_done_amended (s : CaptureWindow) (id : Nat) :
    (s.update id CaptureEvent.Done).1.mode
        = (if s.mode = Mode.Draw then Mode.Crop else s.mode) ∧
      (s.update id CaptureEvent.Done).2
        = (if s.mode = Mode.Draw then none else some (AppEvent.RequestClose id)) ∧
      (s.update id CaptureEvent.Done).1.shapes = s.shapes ∧
      (s.update id CaptureEvent.Done).1.shape = s.shape ∧
      (s.update id CaptureEvent.Done).1.crop_mode = s.crop_mode := by
  cases hm : s.mode <;> simp [CaptureWindow.update, hm]

/-- C4: dispatching `Cancel` with Mode = Draw empties the committed shapes
list, invalidates the render cache and moves the top-level Mode back to Crop
(no close command); with Mode = Crop it returns the Close command and leaves
the state unchanged. In both cases the resulting mode is Crop. -/
theorem C4_cancel (s : CaptureWindow) (id : Nat) :
    (s.update id CaptureEvent.Cancel).1.mode = Mode.Crop ∧
      (s.update id CaptureEvent.Cancel).1.shapes
        = (if s.mode = Mode.Draw then [] else s.shapes) ∧
      (s.update id CaptureEvent.Cancel).1.cache.cleared
        = (if s.mode = Mode.Draw then s.cache.cleared + 1 else s.cache.cleared) ∧
      (s.update id CaptureEvent.Cancel).2
        = (if s.mode = Mode.Draw then none else some (AppEvent.RequestClose id)) ∧
      (if s.mode = Mode.Draw then True else (s.update id CaptureEvent.Cancel).1 = s) := by
  cases hm : s.mode <;> simp [CaptureWindow.update, Cache.clear, hm]

/-- C5: dispatching `Undo` with Mode = Draw removes exactly the most recently
committed shape (all but the last element remain; on an empty list the list
stays empty, no fault — `update` is a total function) and invalidates the
cache; with Mode = Crop it always resets the crop mode to FullScreen and
touches neither shapes nor cache. No close command is ever produced. -/
theorem C5_undo (s : CaptureWindow) (id : Nat) :
    (s.update id CaptureEvent.Undo).2 = none ∧
      (s.update id CaptureEvent.Undo).1.shapes
        = (if s.mode = Mode.Draw then s.shapes.take (s.shapes.length - 1) else s.shapes) ∧
      (s.update id CaptureEvent.Undo).1.cache.cleared
        = (if s.mode = Mode.Draw then s.cache.cleared + 1 else s.cache.cleared) ∧
      (s.update id CaptureEvent.Undo).1.crop_mode
        = (if s.mode = Mode.Draw then s.crop_mode else CropMode.FullScreen) ∧
      (s.update id CaptureEvent.Undo).1.mode = s.mode := by
  cases hm : s.mode <;>
    simp [CaptureWindow.update, Cache.clear, hm, List.dropLast_eq_take]

/-- C8: dispatching `ChooseShapeType(t, f, sol)` in any state — also while
Mode = Crop — unconditionally sets the top-level Mode to Draw, sets the
template's shape type and fill/solid flags, and clears the template's
endpoints to None without committing anything (the shapes list is untouched). -/
theorem C8_choose_shape_type (s : CaptureWindow) (id : Nat)
    (t : ShapeType) (f sol : Bool) :
    (s.update id (CaptureEvent.ChooseShapeType t f sol)).1.mode = Mode.Draw ∧
      (s.update id (CaptureEvent.ChooseShapeType t f sol)).1.shape.endpoints = none ∧
      (s.update id (CaptureEvent.ChooseShapeType t f sol)).1.shape.shape_type = t ∧
      (s.update id (CaptureEvent.ChooseShapeType t f sol)).1.shape.is_filled = f ∧
      (s.update id (CaptureEvent.ChooseShapeType t f sol)).1.shape.is_solid = sol ∧
      (s.update id (CaptureEvent.ChooseShapeType t f sol)).1.shapes = s.shapes ∧
      (s.update id (CaptureEvent.ChooseShapeType t f sol)).2 = none := by
  simp [CaptureWindow.update]

/-- C10: `Endpoints.normalize` is idempotent and its result is componentwise
ordered (initial ≤ final on both axes); it is a pure Lean function, so it has
no side effects. -/
theorem C10_normalize_idempotent (e : Endpoints) :
    Endpoints.normalize (Endpoints.normalize e) = Endpoints.normalize e ∧
      (Endpoints.normalize e).initial_pt.x ≤ (Endpoints.normalize e).final_pt.x ∧
      (Endpoints.normalize e).initial_pt.y ≤ (Endpoints.normalize e).final_pt.y := by
  refine ⟨?_, ?_, ?_⟩
  · simp only [Endpoints.normalize]
    congr 1 <;> congr 1 <;>
      simp [min_eq_left min_le_max, max_eq_right min_le_max]
  · simp only [Endpoints.normalize]
    exact min_le_max
  · simp only [Endpoints.normalize]
    exact min_le_max

theorem update_cursorMove_cropTarget (s : CaptureWindow) (id : Nat) (p : Point)
    (hm : s.mode = Mode.Crop)
    (hc : s.crop_mode = CropMode.FullScreen ∨ ∃ i, s.crop_mode = CropMode.SpecificWindow i) :
    s.update id (CaptureEvent.UpdateCurrentPosition p) =
      match hitWindow s.windows p with
      | some (id2, name, top_left, bottom_right) =>
        ({ s with
            cursor_position := p,
            endpoints := { initial_pt := top_left, final_pt := bottom_right },
            crop_mode := CropMode.SpecificWindow id2,
            mode_desc := name }, none)
      | none =>
        ({ s with
            cursor_position := p,
            crop_mode := CropMode.FullScreen,
            mode_desc := "FullScreen" }, none) := by
  cases hw : hitWindow s.windows p with
  | none =>
    obtain h | ⟨i0, h⟩ := hc <;> simp [CaptureWindow.update, hm, h, hw]
  | some v =>
    obtain ⟨id2, name, top_left, bottom_right⟩ := v
    obtain h | ⟨i0, h⟩ := hc <;> simp [CaptureWindow.update, hm, h, hw]

/-- C2: with Mode = Crop and crop mode FullScreen or SpecificWindow, a
cursor-move runs the window hit test at the cursor with the half-open
containment test `[topLeft, bottomRight)` on both axes (`specContains`): if
the catalog has a containing entry, the first one in insertion order wins and
the state becomes SpecificWindow of its id, with `mode_desc` the window's name
and the selection endpoints the window's bounds; with no containing entry the
state becomes FullScreen with `mode_desc = "FullScreen"`. -/
theorem C2_cursor_move_hit_test (s : CaptureWindow) (id : Nat) (p : Point)
    (hm : s.mode = Mode.Crop)
    (hc : s.crop_mode = CropMode.FullScreen ∨ ∃ i, s.crop_mode = CropMode.SpecificWindow i) :
    (∀ i w, specFind s.windows p = some (i, w) →
        (s.update id (CaptureEvent.UpdateCurrentPosition p)).1.crop_mode
            = CropMode.SpecificWindow i ∧
          (s.update id (CaptureEvent.UpdateCurrentPosition p)).1.mode_desc = w.name ∧
          (s.update id (CaptureEvent.UpdateCurrentPosition p)).1.endpoints
            = { initial_pt := windowTopLeft w, final_pt := windowBottomRight w } ∧
          specContains w p ∧
          ∃ pre post, s.windows = pre ++ (i, w) :: post ∧ ∀ e ∈ pre, ¬ specContains e.2 p) ∧
      (specFind s.windows p = none →
        (s.update id (CaptureEvent.UpdateCurrentPosition p)).1.crop_mode = CropMode.FullScreen ∧
          (s.update id (CaptureEvent.UpdateCurrentPosition p)).1.mode_desc = "FullScreen" ∧
          ∀ e ∈ s.windows, ¬ specContains e.2 p) := by
  constructor
  · intro i w hfind
    have hhit : hitWindow s.windows p
        = some (i, w.name, windowTopLeft w, windowBottomRight w) := by
      rw [hitWindow_eq_specFind, hfind]
      rfl
    obtain ⟨hcw, pre, post, heq, hpre⟩ := specFind_eq_some hfind
    rw [update_cursorMove_cropTarget s id p hm hc, hhit]
    exact ⟨rfl, rfl, rfl, hcw, pre, post, heq, hpre⟩
  · intro hnone
    have hhit : hitWindow s.windows p = none := by
      rw [hitWindow_eq_specFind, hnone]
      rfl
    rw [update_cursorMove_cropTarget s id p hm hc, hhit]
    exact ⟨rfl, rfl, specFind_eq_none hnone⟩

/-- C2 witness: the spec's snapping example — catalog entry A (0,0)–(100,100)
before overlapping entry B, cursor-move to (60,60) snaps to A. -/
theorem C2_witness :
    (base.update 0 (CaptureEvent.UpdateCurrentPosition { x := 60, y := 60 })).1.crop_mode
        = CropMode.SpecificWindow 1 ∧
      (base.update 0 (CaptureEvent.UpdateCurrentPosition { x := 60, y := 60 })).1.mode_desc
        = "A" := by
  have hfind : specFind base.windows { x := 60, y := 60 } = some (1, wA) := by decide
  have h := (C2_cursor_move_hit_test base 0 { x := 60, y := 60 } rfl (Or.inl rfl)).1 1 wA hfind
  exact ⟨h.1, h.2.1⟩

/-- C3: with Mode = Crop, end-drag with the selection's initial endpoint
different from the cursor sets the final endpoint to the cursor and the crop
mode to ManualSelection; with initial endpoint equal to the cursor the crop
mode collapses to FullScreen. In particular from crop mode FullScreen,
begin-drag immediately followed by end-drag at the same point yields
FullScreen again. -/
theorem C3_end_drag_crop (s : CaptureWindow) (id : Nat) (hm : s.mode = Mode.Crop) :
    (s.endpoints.initial_pt ≠ s.cursor_position →
        (s.update id CaptureEvent.SetFinalPoint).1.crop_mode = CropMode.ManualSelection ∧
          (s.update id CaptureEvent.SetFinalPoint).1.endpoints
            = { initial_pt := s.endpoints.initial_pt, final_pt := s.cursor_position }) ∧
      (s.endpoints.initial_pt = s.cursor_position →
        (s.update id CaptureEvent.SetFinalPoint).1.crop_mode = CropMode.FullScreen) ∧
      (s.crop_mode = CropMode.FullScreen →
        (((s.update id CaptureEvent.SetInitialPoint).1).update id
            CaptureEvent.SetFinalPoint).1.crop_mode = CropMode.FullScreen) := by
  refine ⟨fun hne => ?_, fun heq => ?_, fun hfs => ?_⟩
  · simp [CaptureWindow.update, hm, hne]
  · simp [CaptureWindow.update, hm, heq]
  · simp [CaptureWindow.update, hm]

/-- C3 witness: from `base` (Mode = Crop, crop mode FullScreen), a zero-drag
(begin-drag then end-drag with no cursor move) collapses to FullScreen. -/
theorem C3_witness :
    (((base.update 0 CaptureEvent.SetInitialPoint).1).update 0
        CaptureEvent.SetFinalPoint).1.crop_mode = CropMode.FullScreen :=
  (C3_end_drag_crop base 0 rfl).2.2 rfl

/-- C6: with Mode = Draw, end-drag appends the template (a copy, with its
endpoints) to the committed shapes and invalidates the cache exactly when the
template's endpoints are Some, and in every case clears the template's
endpoints to None afterwards; no close command. -/
theorem C6_end_drag_draw (s : CaptureWindow) (id : Nat) (hm : s.mode = Mode.Draw) :
    (s.update id CaptureEvent.SetFinalPoint).1.shape.endpoints = none ∧
      (s.update id CaptureEvent.SetFinalPoint).1.shapes
        = (if s.shape.endpoints.isSome then s.shapes ++ [s.shape] else s.shapes) ∧
      (s.update id CaptureEvent.SetFinalPoint).1.cache.cleared
        = (if s.shape.endpoints.isSome then s.cache.cleared + 1 else s.cache.cleared) ∧
      (s.update id CaptureEvent.SetFinalPoint).2 = none := by
  cases he : s.shape.endpoints <;>
    simp [CaptureWindow.update, Cache.clear, hm, he]

/-- A Draw-mode session state with an in-progress template shape. -/
def exDraw : CaptureWindow :=
  { base with
    mode := Mode.Draw,
    shape := { base.shape with
      endpoints := some { initial_pt := { x := 0, y := 0 },
                          final_pt := { x := 20, y := 20 } } } }

/-- C6 witness: ending the drag of `exDraw` commits exactly one shape and
resets the template's endpoints. -/
theorem C6_witness :
    (exDraw.update 0 CaptureEvent.SetFinalPoint).1.shapes.length = 1 ∧
      (exDraw.update 0 CaptureEvent.SetFinalPoint).1.shape.endpoints = none := by
  have h := C6_end_drag_draw exDraw 0 rfl
  constructor
  · rw [h.2.1]
    decide
  · exact h.1

/-- C7: with Mode = Crop, a cursor-move during SelectionInProgress sets the
selection's final endpoint to the cursor and recomputes `mode_desc` as the
"width x height" string of the normalized, integer-truncated selection size
(`sizeDesc`); during ManualSelection a cursor-move changes neither the crop
mode, the selection endpoints, nor `mode_desc`. -/
theorem C7_cursor_move_selection (s : CaptureWindow) (id : Nat) (p : Point)
    (hm : s.mode = Mode.Crop) :
    (s.crop_mode = CropMode.SelectionInProgress →
        (s.update id (CaptureEvent.UpdateCurrentPosition p)).1.crop_mode
            = CropMode.SelectionInProgress ∧
          (s.update id (CaptureEvent.UpdateCurrentPosition p)).1.endpoints
            = { initial_pt := s.endpoints.initial_pt, final_pt := p } ∧
          (s.update id (CaptureEvent.UpdateCurrentPosition p)).1.mode_desc
            = sizeDesc { initial_pt := s.endpoints.initial_pt, final_pt := p }) ∧
      (s.crop_mode = CropMode.ManualSelection →
        (s.update id (CaptureEvent.UpdateCurrentPosition p)).1.crop_mode = s.crop_mode ∧
          (s.update id (CaptureEvent.UpdateCurrentPosition p)).1.endpoints = s.endpoints ∧
          (s.update id (CaptureEvent.UpdateCurrentPosition p)).1.mode_desc = s.mode_desc) := by
  constructor <;> intro h <;> simp [CaptureWindow.update, hm, h]

/-- A Crop-mode session state mid-drag, started at (10,10). -/
def exSel : CaptureWindow :=
  { base with
    crop_mode := CropMode.SelectionInProgress,
    endpoints := { initial_pt := { x := 10, y := 10 },
                   final_pt := { x := 10, y := 10 } } }

/-- C7 witness: the spec's example — drag from (10,10), cursor-move to
(50,80) displays "40 x 70". -/
theorem C7_witness :
    (exSel.update 0 (CaptureEvent.UpdateCurrentPosition { x := 50, y := 80 })).1.mode_desc
      = "40 x 70" := by
  have h := (C7_cursor_move_selection exSel 0 { x := 50, y := 80 } rfl).1 rfl
  rw [h.2.2]
  show sizeDesc { initial_pt := { x := 10, y := 10 }, final_pt := { x := 50, y := 80 } }
    = "40 x 70"
  have hx : ({ initial_pt := { x := 10, y := 10 }, final_pt := { x := 50, y := 80 } } :
        Endpoints).normalize
      = { initial_pt := { x := 10, y := 10 }, final_pt := { x := 50, y := 80 } } := by
    unfold Endpoints.normalize
    norm_num [min_def, max_def]
  unfold sizeDesc
  rw [hx]
  have h1 : f32AsU32 ((50 : ℚ) - 10) = 40 := by
    unfold f32AsU32
    rw [show ((50 : ℚ) - 10) = 40 by norm_num, show ⌊(40 : ℚ)⌋ = 40 by simp]
    decide
  have h2 : f32AsU32 ((80 : ℚ) - 10) = 70 := by
    unfold f32AsU32
    rw [show ((80 : ℚ) - 10) = 70 by norm_num, show ⌊(70 : ℚ)⌋ = 70 by simp]
    decide
  rw [h1, h2]
  decide

theorem update_windows_eq (s : CaptureWindow) (id : Nat) (e : CaptureEvent) :
    (s.update id e).1.windows = s.windows := by
  cases e <;> simp only [CaptureWindow.update] <;> (repeat' split) <;> rfl

/-- C9: every event dispatch preserves the invariant that a
`SpecificWindow(id)` crop mode references an entry present in the window
catalog, and never changes the catalog itself; when the hit test finds no
containing window the crop mode falls back to FullScreen, so it is never left
holding a dangling id. -/
theorem C9_specific_window_valid (s : CaptureWindow) (id : Nat) (e : CaptureEvent)
    (h : cropModeValid s) :
    cropModeValid (s.update id e).1 ∧ (s.update id e).1.windows = s.windows := by
  refine ⟨fun i hi => ?_, update_windows_eq s id e⟩
  rw [update_windows_eq s id e]
  revert hi
  cases e <;> simp only [CaptureWindow.update] <;> (repeat' split) <;> intro hi <;>
    first
      | exact h i hi
      | exact CropMode.noConfusion hi
      | (injection hi with hh
         subst hh
         exact hitWindow_mem (by assumption))

/-- A session state whose crop mode references catalog entry 1. -/
def exWin : CaptureWindow :=
  { base with crop_mode := CropMode.SpecificWindow 1 }

/-- C9 witness: `exWin` satisfies the invariant, and it is preserved by a
cursor-move to a point outside every catalog window (fallback to FullScreen). -/
theorem C9_witness :
    cropModeValid exWin ∧
      cropModeValid
        (exWin.update 0 (CaptureEvent.UpdateCurrentPosition { x := 500, y := 500 })).1 := by
  have hv : cropModeValid exWin := by
    intro i hi
    have h1 : CropMode.SpecificWindow 1 = CropMode.SpecificWindow i := hi
    obtain rfl : 1 = i := by injection h1
    exact ⟨wA, by decide⟩
  exact ⟨hv,
    (C9_specific_window_valid exWin 0 (CaptureEvent.UpdateCurrentPosition
      { x := 500, y := 500 }) hv).1⟩

end Capter
